import Mathlib

/-
  Verification development for the conversationrelay-bridge session engine
  and session registry.

  The definitions below are a shallow embedding of the TypeScript sources:
  - src/session.ts        (ConversationRelaySession: frame dispatch, outbound ops)
  - src/hooks/sessions.ts (getActiveSession: registry key resolution)
  - src/routes/ws.ts      (wiring of the registration callback and close event)

  Modelling conventions:
  - A JS object typed Record<string, string> is a list of (key, value) pairs;
    property access returns Option String (none = undefined).
  - A possibly-undefined request body is Option (List (String × String)).
  - A thrown JS exception is Except.error carrying the message.
  - `a || b` on strings skips falsy operands (undefined or the empty string);
    `x ?? ""` turns a final undefined into the empty string.
-/

namespace CRBridge

deriving instance DecidableEq for Except

/-- JS property access on an object modelled as an ordered field list: the value
of the first binding of the key, or none (undefined) when the key is missing. -/
def getProp {α : Type} (obj : List (String × α)) (k : String) : Option α :=
  match obj with
  | [] => none
  | kv :: rest => if kv.1 = k then some kv.2 else getProp rest k

/-- Optional-chained access body?.k : none when the body itself is absent. -/
def optChain (body : Option (List (String × String))) (k : String) : Option String :=
  body.bind (fun b => getProp b k)

/-- Value of the chain (body?.k1 || body?.k2 || ... || body?.kn) ?? "" :
the first truthy (present and non-empty) field value in order, else "". -/
def firstTruthyField (body : Option (List (String × String))) : List String → String
  | [] => ""
  | k :: ks =>
    let v := (optChain body k).getD ""
    if v = "" then firstTruthyField body ks else v

/-- Model of the JS String.prototype.startsWith prefix test (the library
String.startsWith is avoided because its loop is defined by well-founded
recursion and would block evaluation inside proofs). -/
def strStartsWith (s p : String) : Bool :=
  p.data.isPrefixOf s.data

/-- The bare (not optional-chained) access body.id from src/hooks/sessions.ts
line 31: evaluating it on an absent body throws a TypeError. On a present body
it yields the field value, and the trailing ?? "" defaults undefined to "". -/
def bareIdAccess (body : Option (List (String × String))) : Except String String :=
  match body with
  | none => Except.error ("TypeError: cannot read properties of undefined (reading id)")
  | some b => Except.ok ((getProp b ("id")).getD "")

/-- Value of (body?.sessionId || body?.SessionId || body.id) ?? "" with JS
short-circuiting: the third operand is only evaluated when the first two are
falsy, and it is the one access that can throw. -/
def sessionIdChain (body : Option (List (String × String))) : Except String String :=
  let v1 := (optChain body ("sessionId")).getD ""
  if v1 = "" then
    let v2 := (optChain body ("SessionId")).getD ""
    if v2 = "" then bareIdAccess body else Except.ok v2
  else Except.ok v1

/-- A live session handle stored in the registry (identity only matters). -/
abbrev SessionHandle := Nat

/-- ActiveSessions = Map<string, ConversationRelaySession>, as a field list. -/
abbrev ActiveSessions := List (String × SessionHandle)

/-- Map.get: some handle when the key is present, none (undefined) otherwise. -/
def mapGet (m : ActiveSessions) (k : String) : Option SessionHandle :=
  getProp m k

/-- The process-wide key-derivation policy, src/session.ts line 6. -/
inductive SessionIdKey where
  | From
  | CallSid
  | SessionId
deriving DecidableEq, Repr

/-- The final fallback of getActiveSession: const from = (body?.From || body?.from) ?? "";
if truthy, look it up (a missing key gives undefined = none); else return null = none. -/
def fromFallback (activeSessions : ActiveSessions)
    (body : Option (List (String × String))) : Option SessionHandle :=
  let f := firstTruthyField body [("From"), ("from")]
  if f = "" then none else mapGet activeSessions f

/-- Shallow embedding of getActiveSession from src/hooks/sessions.ts lines 16-43.
The two sequential policy `if` blocks are rendered as a match on the policy
(the policy equals exactly one alternative, so at most one block runs).
An early `return` of Map.get's undefined and the final `return null` are both
none; a thrown TypeError is Except.error. -/
def getActiveSession (activeSessions : ActiveSessions) (sessionIdKey : SessionIdKey)
    (sessionId? : Option String) (body : Option (List (String × String))) :
    Except String (Option SessionHandle) :=
  if (sessionId?.getD "") = "" then
    match sessionIdKey with
    | SessionIdKey.CallSid =>
      let callSid := firstTruthyField body [("CallSid"), ("Sid"), ("callSid"), ("sid")]
      if strStartsWith callSid ("CA") then Except.ok (mapGet activeSessions callSid)
      else Except.ok (fromFallback activeSessions body)
    | SessionIdKey.SessionId =>
      match sessionIdChain body with
      | Except.error e => Except.error e
      | Except.ok sid =>
        if strStartsWith sid ("VX") then Except.ok (mapGet activeSessions sid)
        else Except.ok (fromFallback activeSessions body)
    | SessionIdKey.From => Except.ok (fromFallback activeSessions body)
  else
    Except.ok (mapGet activeSessions (sessionId?.getD ""))

/-- Call direction, src/session.ts line 15. -/
inductive Direction where
  | inbound
  | outbound
deriving DecidableEq, Repr

/-- SetupMessage (src/session.ts lines 8-17), minus the constant type tag. -/
structure SetupMessage where
  callSid : String
  sessionId : String
  accountSid : String
  «from» : String
  «to» : String
  direction : Direction
  customParameters : List (String × String)
deriving DecidableEq, Repr

/-- PromptMessage, src/session.ts lines 19-24. -/
structure PromptMessage where
  voicePrompt : String
  lang : String
  last : Bool
deriving DecidableEq, Repr

/-- InterruptMessage, src/session.ts lines 26-30. -/
structure InterruptMessage where
  utteranceUntilInterrupt : String
  durationUntilInterruptMs : Nat
deriving DecidableEq, Repr

/-- DTMFMessage, src/session.ts lines 32-35. -/
structure DTMFMessage where
  digit : String
deriving DecidableEq, Repr

/-- ErrorMessage, src/session.ts lines 37-40. -/
structure ErrorMessage where
  description : String
deriving DecidableEq, Repr

/-- The InboundMessages union, src/session.ts lines 42-47. -/
inductive InboundMessages where
  | setup (m : SetupMessage)
  | prompt (m : PromptMessage)
  | interrupt (m : InterruptMessage)
  | dtmf (m : DTMFMessage)
  | error (m : ErrorMessage)
deriving DecidableEq, Repr

/-- One inbound transport frame as handed to the message listener. JSON.parse
either throws (badJson), or yields a value whose type tag is one of the five
known ones (valid), or yields some other shape (unknownType, carrying the type
tag the default branch logs). -/
inductive RawFrame where
  | valid (m : InboundMessages)
  | unknownType (t : String)
  | badJson (raw : String)
deriving DecidableEq, Repr

/-- Model of the message JSON.parse throws on the given non-JSON text. -/
def jsonParseError (raw : String) : String :=
  "Unexpected token in JSON: " ++ raw

/-- The stored session record. The declared TS type Session
(Omit<SetupMessage, "type"> & with startTime, src/session.ts lines 95-97) has no
type field, but the runtime record may carry one: init spreads the whole setup
message, type tag included, into the record. typeField captures that runtime
extra property (none = property absent). -/
structure SessionRecord where
  startTime : Nat
  sessionId : String
  callSid : String
  accountSid : String
  «from» : String
  «to» : String
  direction : Direction
  customParameters : List (String × String)
  typeField : Option String
deriving DecidableEq, Repr

/-- The record built in the constructor, src/session.ts lines 107-116:
startTime is captured now, identity fields are empty defaults, and no type
property exists on the literal. -/
def newSession (startTime : Nat) : SessionRecord :=
  { startTime := startTime
    sessionId := ""
    callSid := ""
    accountSid := ""
    «from» := ""
    «to» := ""
    direction := Direction.inbound
    customParameters := []
    typeField := none }

/-- private init, src/session.ts lines 297-307: this.session is replaced by
the spread { ...this.session, ...message }. Every key of the message (its
type tag included) overwrites; startTime is the only key present solely in the
old record and so the only value preserved. The logger.child reconfiguration
carries no session state and is not modelled. -/
def init (s : SessionRecord) (m : SetupMessage) : SessionRecord :=
  { startTime := s.startTime
    sessionId := m.sessionId
    callSid := m.callSid
    accountSid := m.accountSid
    «from» := m.«from»
    «to» := m.«to»
    direction := m.direction
    customParameters := m.customParameters
    typeField := some ("setup") }

/-- Observable events of one engine instance, in emission order: logger calls,
hook invocations, the start callback invocation, and transmitted frames. -/
inductive Event where
  | received (t : String)
  | onInitialized (m : SetupMessage)
  | hookSetup (m : SetupMessage)
  | hookPrompt (m : PromptMessage)
  | hookInterrupt (m : InterruptMessage)
  | hookDTMF (m : DTMFMessage)
  | hookError (m : ErrorMessage)
  | hookClose
  | unknownWarn (t : String)
  | errorDiag (e : String)
  | sendInfo (s : String)
  | sent (s : String)
  | notOpenWarn
deriving DecidableEq, Repr

/-- The overridable behavior hooks of ConversationRelaySession. A subclass
hook that raises or rejects is modelled by Except.error with the message;
the defaults only emit a debug trace and always succeed. -/
structure Hooks where
  handleSetup : SetupMessage → Except String Unit
  handlePrompt : PromptMessage → Except String Unit
  handleInterrupt : InterruptMessage → Except String Unit
  handleDTMF : DTMFMessage → Except String Unit
  handleError : ErrorMessage → Except String Unit
  handleClose : Unit → Except String Unit

/-- The base-class hooks (src/session.ts lines 245-283): log-only, never fail. -/
def defaultHooks : Hooks :=
  { handleSetup := fun _ => Except.ok ()
    handlePrompt := fun _ => Except.ok ()
    handleInterrupt := fun _ => Except.ok ()
    handleDTMF := fun _ => Except.ok ()
    handleError := fun _ => Except.ok ()
    handleClose := fun _ => Except.ok () }

/-- The catch block of the message listener, src/session.ts lines 156-161:
logger.error with the caught message. -/
def catchDiag (e : String) : Event :=
  Event.errorDiag ("Error processing message: " ++ e)

/-- The body of the per-frame try block, src/session.ts lines 121-155:
parse, log receipt, dispatch by type tag. Returns the session record and the
events accumulated up to the point where the body returned or threw, plus the
outcome (Except.error e = an exception escaped the try body: a parse failure
or an uncaught hook/callback rejection). Mutations made before a throw - in
particular init running before a handleSetup-hook failure - persist. -/
def tryProcess (hooks : Hooks) (onInitialized : Option (SetupMessage → Except String Unit))
    (s : SessionRecord) (f : RawFrame) :
    SessionRecord × List Event × Except String Unit :=
  match f with
  | RawFrame.badJson raw => (s, [], Except.error (jsonParseError raw))
  | RawFrame.unknownType t => (s, [Event.received t, Event.unknownWarn t], Except.ok ())
  | RawFrame.valid m =>
    match m with
    | InboundMessages.setup sm =>
      let cbStep : List Event × Except String Unit :=
        match onInitialized with
        | some cb => ([Event.onInitialized sm], cb sm)
        | none => ([], Except.ok ())
      match cbStep.2 with
      | Except.error e => (s, Event.received ("setup") :: cbStep.1, Except.error e)
      | Except.ok _ =>
        let s' := init s sm
        (s', Event.received ("setup") :: cbStep.1 ++ [Event.hookSetup sm],
          hooks.handleSetup sm)
    | InboundMessages.prompt pm =>
      (s, [Event.received ("prompt"), Event.hookPrompt pm], hooks.handlePrompt pm)
    | InboundMessages.interrupt im =>
      (s, [Event.received ("interrupt"), Event.hookInterrupt im], hooks.handleInterrupt im)
    | InboundMessages.dtmf dm =>
      (s, [Event.received ("dtmf"), Event.hookDTMF dm], hooks.handleDTMF dm)
    | InboundMessages.error em =>
      (s, [Event.received ("error"), Event.hookError em], hooks.handleError em)

/-- One full per-frame run of the message listener, src/session.ts lines
120-162: the try body wrapped in the catch that logs the failure and returns
normally, leaving the connection accepting further frames. -/
def processMessage (hooks : Hooks) (onInitialized : Option (SetupMessage → Except String Unit))
    (s : SessionRecord) (f : RawFrame) : SessionRecord × List Event :=
  match tryProcess hooks onInitialized s f with
  | (s', evs, Except.ok _) => (s', evs)
  | (s', evs, Except.error e) => (s', evs ++ [catchDiag e])

/-- Frames of one connection processed in arrival order, each one's listener
run completing before the next (states thread, events concatenate). -/
def processAll (hooks : Hooks) (onInitialized : Option (SetupMessage → Except String Unit)) :
    SessionRecord → List RawFrame → SessionRecord × List Event
  | s, [] => (s, [])
  | s, f :: fs =>
    let r := processMessage hooks onInitialized s f
    let r' := processAll hooks onInitialized r.1 fs
    (r'.1, r.2 ++ r'.2)

/-- public close, src/session.ts lines 168-170: it only awaits handleClose.
The class keeps no closed flag and consults none, so the record passes through
untouched and every invocation reaches the hook. -/
def closeSession (s : SessionRecord) : SessionRecord × List Event :=
  (s, [Event.hookClose])

/-- n successive close triggers on the same engine (e.g. a transport close
event plus an explicit close call), each running closeSession. -/
def triggerClose (s : SessionRecord) : Nat → SessionRecord × List Event
  | 0 => (s, [])
  | n + 1 =>
    let r := closeSession s
    let r' := triggerClose r.1 n
    (r'.1, r.2 ++ r'.2)

/-- A JSON value as the outbound operations construct them: strings, booleans
(the last flag and the interruptible/preemptible flags) and numbers (loop). -/
inductive Json where
  | str (s : String)
  | boolVal (b : Bool)
  | num (n : Nat)
deriving DecidableEq, Repr

/-- JS object spread { ...base, ...extra }: keys shared with extra keep their
base position but take extra's value; keys only in extra are appended in
extra's order. -/
def jsSpread (base extra : List (String × Json)) : List (String × Json) :=
  base.map (fun kv =>
    match getProp extra kv.1 with
    | some v => (kv.1, v)
    | none => kv)
  ++ extra.filter (fun kv => (getProp base kv.1).isNone)

/-- JSON.stringify of one value. Tokens and URLs in this protocol need no
escaping, so string values serialize as plain quoted text. -/
def stringifyJson : Json → String
  | Json.str s => "\"" ++ s ++ "\""
  | Json.boolVal b => if b then "true" else "false"
  | Json.num n => toString n

/-- JSON.stringify of an object: fields in insertion order. -/
def stringifyFields (fs : List (String × Json)) : String :=
  "\x7b" ++ String.intercalate ","
    (fs.map (fun kv => "\"" ++ kv.1 ++ "\":" ++ stringifyJson kv.2)) ++ "\x7d"

/-- ws.WebSocket.OPEN. -/
def WS_OPEN : Nat := 1

/-- private send, src/session.ts lines 289-295: serialize and transmit only
when the socket readyState is OPEN; otherwise warn and drop the message. -/
def send (readyState : Nat) (fields : List (String × Json)) : List Event :=
  if readyState = WS_OPEN then [Event.sent (stringifyFields fields)]
  else [Event.notOpenWarn]

/-- The object literal sendToken builds, src/session.ts lines 184-189:
{ type: "text", token, last, ...additional }. The additional bag's TS type is
Omit<TextMessage, "type" | "token" | "last">, so a well-typed caller may only
pass lang / interruptible / preemptible fields. -/
def textFields (token : String) (last : Bool) (additional : List (String × Json)) :
    List (String × Json) :=
  jsSpread [(("type"), Json.str ("text")), (("token"), Json.str token),
    (("last"), Json.boolVal last)] additional

/-- public sendToken, src/session.ts lines 178-190. The JS default of the
last parameter is false; callers omitting it are modelled by passing false.
Omitting the additional bag is modelled by the empty bag (spreading undefined
adds nothing). -/
def sendToken (readyState : Nat) (token : String) (last : Bool)
    (additional : List (String × Json)) : List Event :=
  Event.sendInfo ("Sending token " ++ token) ::
    send readyState (textFields token last additional)

/-- The object literal play builds, src/session.ts lines 201-205:
{ type: "play", source, ...additional } with the bag typed
Omit<PlayMessage, "type" | "source">. -/
def playFields (source : String) (additional : List (String × Json)) :
    List (String × Json) :=
  jsSpread [(("type"), Json.str ("play")), (("source"), Json.str source)] additional

/-- public play, src/session.ts lines 197-206. -/
def play (readyState : Nat) (source : String) (additional : List (String × Json)) :
    List Event :=
  send readyState (playFields source additional)

/-- The object literal sendDigits builds, src/session.ts lines 213-216. -/
def sendDigitsFields (digits : String) : List (String × Json) :=
  [(("type"), Json.str ("sendDigits")), (("digits"), Json.str digits)]

/-- public sendDigits, src/session.ts lines 212-217. -/
def sendDigits (readyState : Nat) (digits : String) : List Event :=
  send readyState (sendDigitsFields digits)

/-- The object literal language builds, src/session.ts lines 224-227:
{ type: "language", ...language } with the argument typed
Omit<LanguageMessage, "type">. -/
def languageFields (languageArg : List (String × Json)) : List (String × Json) :=
  jsSpread [(("type"), Json.str ("language"))] languageArg

/-- public language, src/session.ts lines 223-228. -/
def language (readyState : Nat) (languageArg : List (String × Json)) : List Event :=
  send readyState (languageFields languageArg)

/-- The object literal end builds, src/session.ts lines 235-238:
{ type: "end", handoffData }. JSON.stringify drops a property whose value is
undefined, so an omitted handoffData never reaches the wire. -/
def endFields (handoffData : Option String) : List (String × Json) :=
  match handoffData with
  | some h => [(("type"), Json.str ("end")), (("handoffData"), Json.str h)]
  | none => [(("type"), Json.str ("end"))]

/-- public end, src/session.ts lines 234-239 (end is a Lean keyword, hence
the name endSession). -/
def endSession (readyState : Nat) (handoffData : Option String) : List Event :=
  send readyState (endFields handoffData)

/-- The frames actually written to the socket within an event trace. -/
def transmitted (evs : List Event) : List String :=
  evs.filterMap (fun e =>
    match e with
    | Event.sent s => some s
    | _ => none)

/-- Modelled from the claim as stated (key derivation, first clause): the
candidate is the value of the first PRESENT field in scan order, even when
that value is the empty string. Written from the claim's words for comparison
with getActiveSession; not a translation of the source. -/
def firstPresentField (body : Option (List (String × String))) : List String → Option String
  | [] => none
  | k :: ks =>
    match optChain body k with
    | some v => some v
    | none => firstPresentField body ks

/-- Modelled from the claim as stated (fallback clause): take the first of
From, from; look it up if non-empty; otherwise the result is absent. -/
def claimFromFallback (activeSessions : ActiveSessions)
    (body : Option (List (String × String))) : Option SessionHandle :=
  match firstPresentField body [("From"), ("from")] with
  | some f => if f = "" then none else mapGet activeSessions f
  | none => none

/-- Modelled from the claim as stated: derive the candidate key as the first
present, non-absent value (defaulting to the empty string), prefix-check it per
policy, and fall through to the From fallback on failure. -/
def claimResolve (activeSessions : ActiveSessions) (policy : SessionIdKey)
    (body : Option (List (String × String))) : Option SessionHandle :=
  match policy with
  | SessionIdKey.CallSid =>
    let c := (firstPresentField body [("CallSid"), ("Sid"), ("callSid"), ("sid")]).getD ""
    if strStartsWith c ("CA") then mapGet activeSessions c
    else claimFromFallback activeSessions body
  | SessionIdKey.SessionId =>
    let c := (firstPresentField body [("sessionId"), ("SessionId"), ("id")]).getD ""
    if strStartsWith c ("VX") then mapGet activeSessions c
    else claimFromFallback activeSessions body
  | SessionIdKey.From => claimFromFallback activeSessions body

/-- Modelled from the amended claim: on a present payload, scan the key list
and take the value of the first field that is present AND non-empty. -/
def scanNonEmpty (b : List (String × String)) : List String → Option String
  | [] => none
  | k :: ks =>
    match getProp b k with
    | some v => if v = "" then scanNonEmpty b ks else some v
    | none => scanNonEmpty b ks

/-- Modelled from the amended claim: the fallback looks up the first non-empty
of From, from; absent when neither holds a non-empty value. -/
def amendedFrom (activeSessions : ActiveSessions) (b : List (String × String)) :
    Option SessionHandle :=
  match scanNonEmpty b [("From"), ("from")] with
  | some f => mapGet activeSessions f
  | none => none

/-- Modelled from the amended claim: with a present payload and no explicit
key, the candidate under CallSid (resp. SessionId) is the first non-empty value
in scan order, defaulting to the empty string; it is accepted on the CA (resp.
VX) prefix; otherwise, and always under From, the From fallback applies. -/
def amendedResolve (activeSessions : ActiveSessions) (policy : SessionIdKey)
    (b : List (String × String)) : Option SessionHandle :=
  match policy with
  | SessionIdKey.CallSid =>
    let c := (scanNonEmpty b [("CallSid"), ("Sid"), ("callSid"), ("sid")]).getD ""
    if strStartsWith c ("CA") then mapGet activeSessions c
    else amendedFrom activeSessions b
  | SessionIdKey.SessionId =>
    let c := (scanNonEmpty b [("sessionId"), ("SessionId"), ("id")]).getD ""
    if strStartsWith c ("VX") then mapGet activeSessions c
    else amendedFrom activeSessions b
  | SessionIdKey.From => amendedFrom activeSessions b

/-- A concrete setup frame (the one the repository tests use). -/
def sm0 : SetupMessage :=
  { callSid := "CA123456"
    sessionId := "VX789012"
    accountSid := "AC123456"
    «from» := "+1234567890"
    «to» := "+0987654321"
    direction := Direction.inbound
    customParameters := [(("key"), ("value"))] }

/-- A concrete prompt frame. -/
def pm0 : PromptMessage :=
  { voicePrompt := "Hello", lang := "en", last := false }

/-- A subclass whose overridden handlePrompt rejects. -/
def boomHooks : Hooks :=
  { defaultHooks with handlePrompt := fun _ => Except.error ("boom") }

/-- On a present body, the || chain value is the first non-empty scanned field,
defaulting to the empty string. -/
theorem firstTruthyField_eq_scanNonEmpty (b : List (String × String)) (ks : List String) :
    firstTruthyField (some b) ks = (scanNonEmpty b ks).getD "" := by
  induction ks with
  | nil => rfl
  | cons k ks ih =>
    simp only [firstTruthyField, scanNonEmpty, optChain, Option.bind]
    cases h : getProp b k with
    | none => simpa using ih
    | some v =>
      by_cases hv : v = "" <;> simp [hv, ih]

/-- A scan that finds a field never yields the empty string. -/
theorem scanNonEmpty_ne_empty (b : List (String × String)) (ks : List String) (v : String)
    (h : scanNonEmpty b ks = some v) : v ≠ "" := by
  induction ks with
  | nil => simp [scanNonEmpty] at h
  | cons k ks ih =>
    cases hg : getProp b k with
    | none =>
      simp only [scanNonEmpty, hg] at h
      exact ih h
    | some w =>
      simp only [scanNonEmpty, hg] at h
      by_cases hw : w = ""
      · rw [if_pos hw] at h; exact ih h
      · rw [if_neg hw] at h; cases h; exact hw

/-- On a present body the sessionId chain never throws and computes the first
non-empty of sessionId, SessionId, id. -/
theorem sessionIdChain_present (b : List (String × String)) :
    sessionIdChain (some b) =
      Except.ok ((scanNonEmpty b [("sessionId"), ("SessionId"), ("id")]).getD "") := by
  simp only [sessionIdChain, bareIdAccess, scanNonEmpty, optChain, Option.bind]
  cases h1 : getProp b ("sessionId") with
  | none =>
    simp only [Option.getD_none, if_pos rfl]
    cases h2 : getProp b ("SessionId") with
    | none =>
      cases h3 : getProp b ("id") with
      | none => simp
      | some v3 => by_cases hv3 : v3 = "" <;> simp [hv3]
    | some v2 =>
      by_cases hv2 : v2 = ""
      · subst hv2
        simp only [Option.getD_some, if_pos rfl]
        cases h3 : getProp b ("id") with
        | none => simp
        | some v3 => by_cases hv3 : v3 = "" <;> simp [hv3]
      · simp [hv2]
  | some v1 =>
    by_cases hv1 : v1 = ""
    · subst hv1
      simp only [Option.getD_some, if_pos rfl]
      cases h2 : getProp b ("SessionId") with
      | none =>
        cases h3 : getProp b ("id") with
        | none => simp
        | some v3 => by_cases hv3 : v3 = "" <;> simp [hv3]
      | some v2 =>
        by_cases hv2 : v2 = ""
        · subst hv2
          simp only [Option.getD_some, if_pos rfl]
          cases h3 : getProp b ("id") with
          | none => simp
          | some v3 => by_cases hv3 : v3 = "" <;> simp [hv3]
        · simp [hv2]
    · simp [hv1]

/-- On a present body the source's From fallback agrees with the amended one. -/
theorem fromFallback_present (A : ActiveSessions) (b : List (String × String)) :
    fromFallback A (some b) = amendedFrom A b := by
  unfold fromFallback amendedFrom
  rw [firstTruthyField_eq_scanNonEmpty]
  cases h : scanNonEmpty b [("From"), ("from")] with
  | none => simp
  | some f => simp [scanNonEmpty_ne_empty b _ f h]

/-- C2, counterexample. The claim says the CallSid candidate is the first
present, non-absent value. With policy CallSid, a registry holding key CA9, and
payload with CallSid present-but-empty and Sid = CA9, the claim as stated takes
the empty CallSid, fails the CA prefix check and falls through to the absent
From fallback, resolving to absent - but the code's || chain skips the empty
string, accepts CA9 and finds the session. -/
theorem getActiveSession_first_present_refuted :
    claimResolve [(("CA9"), 1)] SessionIdKey.CallSid
        (some [(("CallSid"), ""), (("Sid"), ("CA9"))]) = none
    ∧ getActiveSession [(("CA9"), 1)] SessionIdKey.CallSid none
        (some [(("CallSid"), ""), (("Sid"), ("CA9"))]) = Except.ok (some 1) := by
  exact ⟨by decide, by decide⟩

/-- C2, amended: for every present payload and every policy, with no explicit
key, getActiveSession derives the candidate as the first present AND non-empty
value in the policy's scan order (defaulting to the empty string), accepts it
on the policy's prefix, and otherwise falls through to looking up the first
non-empty of From, from, yielding absent when neither is non-empty. (An absent
payload is excluded: under policy SessionId the source then faults - see the
development's TypeError theorem.) -/
theorem getActiveSession_matches_amended_derivation (A : ActiveSessions)
    (policy : SessionIdKey) (b : List (String × String)) :
    getActiveSession A policy none (some b) = Except.ok (amendedResolve A policy b) := by
  cases policy with
  | From =>
    simp [getActiveSession, amendedResolve, fromFallback_present]
  | CallSid =>
    simp only [getActiveSession, amendedResolve, Option.getD_none, if_pos rfl]
    rw [firstTruthyField_eq_scanNonEmpty]
    cases h : strStartsWith ((scanNonEmpty b [("CallSid"), ("Sid"), ("callSid"), ("sid")]).getD "") ("CA") <;>
      simp [h, fromFallback_present]
  | SessionId =>
    simp only [getActiveSession, amendedResolve, Option.getD_none, if_pos rfl]
    rw [sessionIdChain_present]
    cases h : strStartsWith ((scanNonEmpty b [("sessionId"), ("SessionId"), ("id")]).getD "") ("VX") <;>
      simp [h, fromFallback_present]

/-- C3: the resolver does not always return found-or-absent without raising.
Under policy SessionId, with no explicit key and an absent request body (for
example the GET /twiml route, whose requests carry no body), the un-chained
access body.id throws a TypeError that propagates out of getActiveSession. -/
theorem getActiveSession_throws_on_absent_body :
    getActiveSession [] SessionIdKey.SessionId none none =
      Except.error ("TypeError: cannot read properties of undefined (reading id)") := by
  decide

/-- C1: processing a valid setup frame with a supplied registration callback
invokes the callback exactly once with the parsed setup message, and the
callback completes before the handleSetup hook fires (the trace is exactly
receipt, callback, hook); afterwards the Session record's identity fields
equal the frame's fields. Stated for runs where the callback and hook succeed;
their failures are the subject of the error-handling claims. -/
theorem setup_callback_once_before_hook (hooks : Hooks)
    (cb : SetupMessage → Except String Unit) (s : SessionRecord) (sm : SetupMessage)
    (hcb : cb sm = Except.ok ()) (hhook : hooks.handleSetup sm = Except.ok ()) :
    processMessage hooks (some cb) s (RawFrame.valid (InboundMessages.setup sm)) =
      (init s sm, [Event.received ("setup"), Event.onInitialized sm, Event.hookSetup sm])
    ∧ (init s sm).callSid = sm.callSid
    ∧ (init s sm).sessionId = sm.sessionId
    ∧ (init s sm).accountSid = sm.accountSid
    ∧ (init s sm).«from» = sm.«from»
    ∧ (init s sm).«to» = sm.«to»
    ∧ (init s sm).direction = sm.direction
    ∧ (init s sm).customParameters = sm.customParameters := by
  refine ⟨?_, rfl, rfl, rfl, rfl, rfl, rfl, rfl⟩
  simp [processMessage, tryProcess, hcb, hhook]

/-- C1 witness at the concrete setup frame of the repository tests. -/
theorem setup_callback_once_before_hook_witness :
    processMessage defaultHooks (some (fun _ => Except.ok ())) (newSession 0)
        (RawFrame.valid (InboundMessages.setup sm0)) =
      (init (newSession 0) sm0,
        [Event.received ("setup"), Event.onInitialized sm0, Event.hookSetup sm0]) :=
  (setup_callback_once_before_hook defaultHooks (fun _ => Except.ok ())
    (newSession 0) sm0 rfl rfl).1

/-- C4 counterexample: with an overridden handlePrompt rejecting with boom,
the rejection does escape the try body, but the engine's per-frame processing
catches it: processMessage returns normally, reporting the failure as the
Error-processing-message diagnostic instead of letting it propagate. -/
theorem hook_failure_not_propagated :
    (tryProcess boomHooks none (newSession 0)
        (RawFrame.valid (InboundMessages.prompt pm0))).2.2 = Except.error ("boom")
    ∧ processMessage boomHooks none (newSession 0)
        (RawFrame.valid (InboundMessages.prompt pm0)) =
      (newSession 0,
        [Event.received ("prompt"), Event.hookPrompt pm0, catchDiag ("boom")]) := by
  exact ⟨rfl, rfl⟩

/-- C4 amended: a per-frame failure escaping the try body (a rejecting hook or
callback, or a parse error) is caught by the engine: that frame's processing
returns normally with exactly one Error-processing-message diagnostic appended
to its trace, and subsequent frames are still processed. -/
theorem hook_failure_caught_and_reported (hooks : Hooks)
    (onInitialized : Option (SetupMessage → Except String Unit))
    (s s' : SessionRecord) (f : RawFrame) (evs : List Event) (e : String)
    (fs : List RawFrame)
    (h : tryProcess hooks onInitialized s f = (s', evs, Except.error e)) :
    processMessage hooks onInitialized s f = (s', evs ++ [catchDiag e])
    ∧ processAll hooks onInitialized s (f :: fs) =
        ((processAll hooks onInitialized s' fs).1,
          (evs ++ [catchDiag e]) ++ (processAll hooks onInitialized s' fs).2) := by
  have h1 : processMessage hooks onInitialized s f = (s', evs ++ [catchDiag e]) := by
    simp [processMessage, h]
  exact ⟨h1, by simp [processAll, h1]⟩

/-- C4 amended witness at the concrete rejecting prompt hook. -/
theorem hook_failure_caught_and_reported_witness :
    processMessage boomHooks none (newSession 0)
        (RawFrame.valid (InboundMessages.prompt pm0)) =
      (newSession 0,
        [Event.received ("prompt"), Event.hookPrompt pm0] ++ [catchDiag ("boom")]) :=
  (hook_failure_caught_and_reported boomHooks none (newSession 0) (newSession 0)
    (RawFrame.valid (InboundMessages.prompt pm0))
    [Event.received ("prompt"), Event.hookPrompt pm0] ("boom") [] rfl).1

/-- C8: a frame whose payload fails to deserialize invokes no hook and leaves
the record untouched - its whole trace is the single diagnostic carrying the
parse error - and the connection remains usable: the remaining frames are
processed exactly as they would have been without the malformed one. -/
theorem malformed_frame_dropped_connection_continues (hooks : Hooks)
    (onInitialized : Option (SetupMessage → Except String Unit))
    (s : SessionRecord) (raw : String) (fs : List RawFrame) :
    processMessage hooks onInitialized s (RawFrame.badJson raw) =
      (s, [catchDiag (jsonParseError raw)])
    ∧ processAll hooks onInitialized s (RawFrame.badJson raw :: fs) =
        ((processAll hooks onInitialized s fs).1,
          catchDiag (jsonParseError raw) :: (processAll hooks onInitialized s fs).2) := by
  constructor
  · simp [processMessage, tryProcess]
  · simp [processAll, processMessage, tryProcess]

/-- C9 counterexample: two close triggers (e.g. the transport close event plus
an explicit close call) invoke handleClose twice, not once - close has no
idempotence guard. -/
theorem close_twice_invokes_handleClose_twice :
    ((triggerClose (newSession 0) 2).2).count Event.hookClose = 2
    ∧ ¬ (((triggerClose (newSession 0) 2).2).count Event.hookClose = 1) := by
  exact ⟨by decide, by decide⟩

/-- C9 amended: close invokes handleClose exactly once per trigger: n close
triggers produce exactly n handleClose invocations (the class keeps no
already-closed flag). In the reference wiring only the transport's single
close event calls close, so there it fires once. -/
theorem close_invocations_equal_triggers (s : SessionRecord) (n : Nat) :
    ((triggerClose s n).2).count Event.hookClose = n := by
  induction n generalizing s with
  | zero => rfl
  | succ n ih =>
    simp [triggerClose, closeSession, List.count_append, ih]

/-- C10: init overwrites the stored record with every field of the inbound
setup message, the type tag included - the stored record afterwards carries
type = setup even though the constructed record (like the declared Session
shape) has no such property - while startTime is the only field preserved
from the record built at construction. -/
theorem init_spreads_whole_message (s : SessionRecord) (m : SetupMessage) (t : Nat) :
    (init s m).typeField = some ("setup")
    ∧ (newSession t).typeField = none
    ∧ (init s m).startTime = s.startTime
    ∧ (init s m).callSid = m.callSid
    ∧ (init s m).sessionId = m.sessionId
    ∧ (init s m).accountSid = m.accountSid
    ∧ (init s m).«from» = m.«from»
    ∧ (init s m).«to» = m.«to»
    ∧ (init s m).direction = m.direction
    ∧ (init s m).customParameters = m.customParameters := by
  exact ⟨rfl, rfl, rfl, rfl, rfl, rfl, rfl, rfl, rfl, rfl⟩

/-- C6: with the connection open, sendToken transmits exactly the serialized
text message - last defaulting to false, true when passed - and an
additional-properties bag such as lang: en is merged into the object. -/
theorem sendToken_wire_format :
    transmitted (sendToken WS_OPEN ("hello") false []) =
      [("\x7b\"type\":\"text\",\"token\":\"hello\",\"last\":false\x7d")]
    ∧ transmitted (sendToken WS_OPEN ("world") true []) =
      [("\x7b\"type\":\"text\",\"token\":\"world\",\"last\":true\x7d")]
    ∧ transmitted (sendToken WS_OPEN ("hello") false [(("lang"), Json.str ("en"))]) =
      [("\x7b\"type\":\"text\",\"token\":\"hello\",\"last\":false,\"lang\":\"en\"\x7d")] := by
  exact ⟨by decide, by decide, by decide⟩

/-- Property lookup scans an append left to right. -/
theorem getProp_append {α : Type} (l1 l2 : List (String × α)) (k : String) :
    getProp (l1 ++ l2) k =
      match getProp l1 k with
      | some v => some v
      | none => getProp l2 k := by
  induction l1 with
  | nil => simp [getProp]
  | cons kv rest ih =>
    by_cases h : kv.1 = k <;> simp [getProp, h, ih]

/-- A key bound in the base keeps its position under the spread, with the
bag's value when the bag also binds it (the spread comes last and overrides)
and the base's value otherwise. -/
theorem getProp_jsSpread_of_base (base extra : List (String × Json)) (k : String)
    (v : Json) (hb : getProp base k = some v) :
    getProp (jsSpread base extra) k = some ((getProp extra k).getD v) := by
  unfold jsSpread
  rw [getProp_append]
  have hmap : getProp (base.map (fun kv =>
      match getProp extra kv.1 with
      | some w => (kv.1, w)
      | none => kv)) k = some ((getProp extra k).getD v) := by
    induction base with
    | nil => cases hb
    | cons kv rest ih =>
      rw [getProp] at hb
      by_cases h : kv.1 = k
      · subst h
        rw [if_pos rfl] at hb
        cases hb
        cases hge : getProp extra kv.1 <;>
          simp [List.map_cons, hge, getProp]
      · rw [if_neg h] at hb
        cases hge : getProp extra kv.1 <;>
          simp [List.map_cons, hge, getProp, h, ih hb]
  rw [hmap]

/-- C7 counterexample: the additional bag is spread last in the object literal
sendToken builds, so a bag binding the discriminant overrides it: with a bag
carrying type: evil, the constructed text message's type field is evil, not
text. (The TS Omit parameter type discourages such a bag but does not bar a
width-subtyped value carrying extra properties.) -/
theorem extension_bag_override_refuted :
    getProp (textFields ("hello") false [(("type"), Json.str ("evil"))]) ("type") =
      some (Json.str ("evil"))
    ∧ ¬ (getProp (textFields ("hello") false [(("type"), Json.str ("evil"))]) ("type") =
      some (Json.str ("text"))) := by
  exact ⟨by decide, by decide⟩

/-- C7 amended: for the outbound operations taking an extension bag (sendToken,
play, language), the bag is spread last, so a conflicting field name in the bag
DOES override the required type discriminant and the variant-defining field
(token, source): each required field of the constructed message carries the
bag's value when the bag binds that name and the operation's required value
otherwise. sendDigits and end take no bag, so their discriminant is fixed by
construction. -/
theorem extension_bag_override_semantics (token source digits : String) (last : Bool)
    (handoff : Option String) (bag : List (String × Json)) :
    getProp (textFields token last bag) ("type") =
      some ((getProp bag ("type")).getD (Json.str ("text")))
    ∧ getProp (textFields token last bag) ("token") =
      some ((getProp bag ("token")).getD (Json.str token))
    ∧ getProp (playFields source bag) ("type") =
      some ((getProp bag ("type")).getD (Json.str ("play")))
    ∧ getProp (playFields source bag) ("source") =
      some ((getProp bag ("source")).getD (Json.str source))
    ∧ getProp (languageFields bag) ("type") =
      some ((getProp bag ("type")).getD (Json.str ("language")))
    ∧ getProp (sendDigitsFields digits) ("type") = some (Json.str ("sendDigits"))
    ∧ getProp (endFields handoff) ("type") = some (Json.str ("end")) := by
  refine ⟨?_, ?_, ?_, ?_, ?_, ?_, ?_⟩
  · exact getProp_jsSpread_of_base _ bag _ _ (by simp [getProp])
  · exact getProp_jsSpread_of_base _ bag _ _ (by simp [getProp])
  · exact getProp_jsSpread_of_base _ bag _ _ (by simp [getProp])
  · exact getProp_jsSpread_of_base _ bag _ _ (by simp [getProp])
  · exact getProp_jsSpread_of_base _ bag _ _ (by simp [getProp])
  · simp [sendDigitsFields, getProp]
  · cases handoff <;> simp [endFields, getProp]

end CRBridge
